import Mathlib

/-!
Verification of the loan accrual engine of the TRUSTED-FRIENDS application
(`aap.py`): the functions `months_overdue` and `calculate_loan_fields`, and
the manual-penalty override branch of the edit-loan submit handler.

Modelling conventions (shallow embedding of the Python source):
* Monetary amounts, rates and durations are exact rationals (`ℚ`).  The
  Python source computes on binary floats; the decimal literals of the
  source (`30.437`, `0.10`, percentages) are embedded as the exact
  rationals they denote.
* Instants (`datetime.datetime`) are rationals counting days since an
  arbitrary epoch, the fractional part being the time of day.  Calendar
  dates (`datetime.date`) are integers counting whole days.
* `round(x, 2)` is embedded as rounding to an integer number of hundredths,
  ties going up (`round2`).  Python resolves a tie by the binary float
  representation; no statement below depends on tie behaviour.
* Python expressions that can raise are modelled in `Except PyErr`; the
  bare `except:` of `months_overdue` is the `.error → 0` catch in
  `months_overdue` below.
-/

/-- Errors the modelled Python fragments can raise: `strptime` raises
`ValueError` on an unparseable string; comparing or adding incompatible
date-like values raises `TypeError`. -/
inductive PyErr where
  | valueError : PyErr
  | typeError : PyErr
deriving DecidableEq, Repr

/-- The date-like values that reach `months_overdue` / `calculate_loan_fields`
as the `loan_date` argument in the source:
* `str p` — a string; `strptime(s, "%Y-%m-%d")` is embedded by the string's
  semantic content `p`: `some d` when it parses as the date `d` (a midnight
  instant, whole days since the epoch), `none` when parsing raises.
* `date d` — a `datetime.date` (what `st.date_input` returns), day number `d`.
* `datetime t` — a `datetime.datetime` at instant `t` (days, fractional).
* `nan` — a missing value (`pd.notna` is false on it). -/
inductive PyDateLike where
  | str (parsed : Option ℤ) : PyDateLike
  | date (d : ℤ) : PyDateLike
  | datetime (t : ℚ) : PyDateLike
  | nan : PyDateLike
deriving DecidableEq, Repr

/-- `pd.notna`: false exactly on the missing value. -/
def pd_notna : PyDateLike → Bool
  | .nan => false
  | _ => true

/-- Python `int(q)`: truncation toward zero (floor for nonnegative `q`,
ceiling for negative `q`). -/
def pyInt (q : ℚ) : ℤ :=
  if 0 ≤ q then ⌊q⌋ else ⌈q⌉

/-- Python `round(x, 2)`: the value rounded to a whole number of
hundredths. -/
def round2 (q : ℚ) : ℚ :=
  (round (q * 100) : ℤ) / 100

/-- Adding `timedelta(days=k)` to a date-like value: a `date` stays a
`date`, a `datetime` stays a `datetime`; `str + timedelta` and
`nan + timedelta` raise `TypeError` in Python. -/
def addDays : PyDateLike → ℤ → Except PyErr PyDateLike
  | .date d, k => .ok (.date (d + k))
  | .datetime t, k => .ok (.datetime (t + k))
  | .str _, _ => .error .typeError
  | .nan, _ => .error .typeError

/-- The body of `months_overdue` with exceptions made explicit
(`aap.py`, lines 180-191, inside the `try`):

```python
if isinstance(loan_date, str):
    start = datetime.strptime(loan_date, "%Y-%m-%d")
else:
    start = loan_date
due = start + timedelta(days=int(duration_months * 30.437))
today = datetime.now()
if today <= due:
    return 0
delta_days = (today - due).days
return delta_days // 30
```

`now` stands for `datetime.now()`.  Comparing the `datetime` value `now`
with a non-`datetime` `due` raises `TypeError` (so for a `date`-typed
`loan_date` the comparison line raises).  `(today - due).days` is the floor
of the difference in days, and `//` is Python's floor division. -/
def months_overdueE (loan_date : PyDateLike) (duration_months : ℚ) (now : ℚ) :
    Except PyErr ℤ :=
  match
    (match loan_date with
     | .str (some d) => Except.ok (PyDateLike.datetime (d : ℚ))
     | .str none => Except.error PyErr.valueError
     | x => Except.ok x : Except PyErr PyDateLike)
  with
  | .error e => .error e
  | .ok start =>
    match addDays start (pyInt (duration_months * (30437 / 1000))) with
    | .error e => .error e
    | .ok due =>
      match due with
      | .datetime u =>
          if now ≤ u then
            .ok 0
          else
            .ok (Int.fdiv ⌊now - u⌋ 30)
      | _ => .error .typeError

/-- `months_overdue` (`aap.py`, lines 179-192): the body above wrapped in
`try: ... except: return 0`. -/
def months_overdue (loan_date : PyDateLike) (duration_months : ℚ) (now : ℚ) : ℤ :=
  match months_overdueE loan_date duration_months now with
  | .ok n => n
  | .error _ => 0

/-- `calculate_loan_fields` (`aap.py`, lines 195-214):

```python
interest = amount * (rate / 100) * duration
overdue_months = months_overdue(loan_date, duration) if pd.notna(loan_date) else 0
penalty = amount * 0.10 * overdue_months
provisional = amount + admin_fees + interest - remitted
if provisional <= 0:
    penalty = 0.0
total_add = admin_fees + interest + penalty
g_total = amount + total_add
balance = g_total - remitted
return (round(interest, 2), round(penalty, 2), round(total_add, 2),
        round(g_total, 2), round(max(balance, 0), 2))
```

`now` stands for the `datetime.now()` read inside `months_overdue`. -/
def calculate_loan_fields (amount rate duration admin_fees remitted : ℚ)
    (loan_date : PyDateLike) (now : ℚ) : ℚ × ℚ × ℚ × ℚ × ℚ :=
  let interest := amount * (rate / 100) * duration
  let overdue_months : ℤ :=
    if pd_notna loan_date then months_overdue loan_date duration now else 0
  let penalty := amount * (10 / 100) * (overdue_months : ℚ)
  let provisional := amount + admin_fees + interest - remitted
  let penalty := if provisional ≤ 0 then 0 else penalty
  let total_add := admin_fees + interest + penalty
  let g_total := amount + total_add
  let balance := g_total - remitted
  (round2 interest, round2 penalty, round2 total_add, round2 g_total,
    round2 (max balance 0))

/-- The submit handler of `edit_single_loan_form` (`aap.py`, lines
1165-1193), restricted to the five derived fields it stores
(`interest`, `penalty_charged`, `total`, `g_total`, `balance`):

```python
pure_interest = edit_amount * (edit_rate / 100) * edit_duration
if edit_penalty > 0:
    final_penalty = edit_penalty
    total_add = edit_admin_fee + pure_interest + final_penalty
    g_total = edit_amount + total_add
    balance = 0.0
else:
    _, final_penalty, total_add, g_total, balance = calculate_loan_fields(...)
... round(pure_interest, 2), round(final_penalty, 2), round(total_add, 2),
    round(g_total, 2), round(max(balance, 0), 2)
```
-/
def edit_loan_submit (edit_amount edit_rate edit_duration edit_admin_fee
    edit_remitted edit_penalty : ℚ) (edit_date : PyDateLike) (now : ℚ) :
    ℚ × ℚ × ℚ × ℚ × ℚ :=
  let pure_interest := edit_amount * (edit_rate / 100) * edit_duration
  if 0 < edit_penalty then
    let final_penalty := edit_penalty
    let total_add := edit_admin_fee + pure_interest + final_penalty
    let g_total := edit_amount + total_add
    let balance : ℚ := 0
    (round2 pure_interest, round2 final_penalty, round2 total_add,
      round2 g_total, round2 (max balance 0))
  else
    let r := calculate_loan_fields edit_amount edit_rate edit_duration
      edit_admin_fee edit_remitted edit_date now
    (round2 pure_interest, round2 r.2.1, round2 r.2.2.1, round2 r.2.2.2.1,
      round2 (max r.2.2.2.2 0))

/-- Follows the spec's words (§4.1) for `monthsOverdue` on a valid
disbursement instant: due date = disbursement + `round(durationMonths ×
30.437)` days; 0 when `asOf` is at or before the due date, else
`floor((asOf − dueDate).days / 30)`.  Kept separate from the source
embedding so the two can be compared. -/
def monthsOverdueSpec (start duration_months now : ℚ) : ℤ :=
  let due : ℚ := start + (round (duration_months * (30437 / 1000)) : ℤ)
  if now ≤ due then 0 else Int.fdiv ⌊now - due⌋ 30

/-- The amended spec formula: identical to `monthsOverdueSpec` except that
the day offset is `⌊durationMonths × 30.437⌋` (the truncation the source's
`int(...)` performs on the nonnegative durations in scope), not
`round(...)`. -/
def monthsOverdueAmended (start duration_months now : ℚ) : ℤ :=
  let due : ℚ := start + (⌊duration_months * (30437 / 1000)⌋ : ℤ)
  if now ≤ due then 0 else Int.fdiv ⌊now - due⌋ 30

/-- `calculate_loan_fields` with exception propagation made explicit: the
only sub-expression of the Python body that can raise is the call to
`months_overdue`, and that function catches every exception internally
(`except: return 0`), which the inner match mirrors.  Everything else is
float arithmetic, `round`, and `max`, none of which raise. -/
def calculate_loan_fieldsE (amount rate duration admin_fees remitted : ℚ)
    (loan_date : PyDateLike) (now : ℚ) : Except PyErr (ℚ × ℚ × ℚ × ℚ × ℚ) :=
  let interest := amount * (rate / 100) * duration
  match
    (if pd_notna loan_date then
       match months_overdueE loan_date duration now with
       | .ok n => Except.ok n
       | .error _ => Except.ok 0
     else Except.ok 0 : Except PyErr ℤ)
  with
  | .error e => .error e
  | .ok overdue_months =>
    let penalty := amount * (10 / 100) * (overdue_months : ℚ)
    let provisional := amount + admin_fees + interest - remitted
    let penalty := if provisional ≤ 0 then 0 else penalty
    let total_add := admin_fees + interest + penalty
    let g_total := amount + total_add
    let balance := g_total - remitted
    .ok (round2 interest, round2 penalty, round2 total_add, round2 g_total,
      round2 (max balance 0))

lemma round2_zero : round2 0 = 0 := by
  simp [round2]

lemma round2_nonneg {q : ℚ} (h : 0 ≤ q) : 0 ≤ round2 q := by
  unfold round2
  apply div_nonneg _ (by norm_num)
  have : (0 : ℤ) ≤ round (q * 100) := by
    rw [round_eq]
    exact Int.le_floor.mpr (by push_cast; nlinarith)
  exact_mod_cast this

lemma round2_cents_add (k : ℤ) (x : ℚ) :
    round2 ((k : ℚ) / 100 + x) = (k : ℚ) / 100 + round2 x := by
  unfold round2
  rw [add_mul, div_mul_cancel₀ _ (by norm_num : (100 : ℚ) ≠ 0), round_int_add]
  push_cast
  ring

/-! Sanity evaluations of the embedding on the spec's §8 scenarios:
scenario A (90 days elapsed, not yet overdue), scenario B (150 days
elapsed, one overdue month). -/

example : months_overdue (.datetime 0) 2 90 = 1 := by
  norm_num [months_overdue, months_overdueE, addDays, pyInt]

example : months_overdue (.datetime 0) 3 91 = 0 := by
  norm_num [months_overdue, months_overdueE, addDays, pyInt]

example :
    calculate_loan_fields 100000 5 3 2000 0 (.datetime 0) 90 =
      (15000, 0, 17000, 117000, 117000) := by
  norm_num [calculate_loan_fields, months_overdue, months_overdueE, addDays,
    pyInt, pd_notna, round2, round_eq]

example :
    calculate_loan_fields 100000 5 3 2000 0 (.datetime 0) 150 =
      (15000, 10000, 27000, 127000, 127000) := by
  norm_num [calculate_loan_fields, months_overdue, months_overdueE, addDays,
    pyInt, pd_notna, round2, round_eq, show Int.fdiv 59 30 = 1 from by decide]

/-- C3: if `provisional = principal + adminFee + interest − amountRemitted
≤ 0`, the returned penalty is 0 regardless of how overdue the loan is (the
reference instant and disbursement date are quantified freely). -/
theorem provisional_nonpos_zero_penalty
    (amount rate duration admin_fees remitted : ℚ) (loan_date : PyDateLike)
    (now : ℚ)
    (h : amount + admin_fees + amount * (rate / 100) * duration - remitted ≤ 0) :
    (calculate_loan_fields amount rate duration admin_fees remitted
      loan_date now).2.1 = 0 := by
  simp [calculate_loan_fields, h, round2_zero]

/-- C3 witness: spec §8 scenario C — principal 100000, rate 5, duration 3,
admin fee 2000, remitted 120000 has nonpositive provisional, so the
penalty component is 0. -/
theorem provisional_nonpos_zero_penalty_witness :
    (100000 : ℚ) + 2000 + 100000 * (5 / 100) * 3 - 120000 ≤ 0 ∧
    (calculate_loan_fields 100000 5 3 2000 120000 (.datetime 0) 150).2.1 = 0 :=
  ⟨by norm_num,
    provisional_nonpos_zero_penalty 100000 5 3 2000 120000 (.datetime 0) 150
      (by norm_num)⟩

/-- C6: the interest component is always `round2 (principal × (rate/100) ×
durationMonths)` — flat-rate, proportional to the contractual duration and
independent of the disbursement date and of the reference instant, both of
which are quantified freely on the left and absent on the right. -/
theorem interest_flat_contractual
    (amount rate duration admin_fees remitted : ℚ) (loan_date : PyDateLike)
    (now : ℚ) :
    (calculate_loan_fields amount rate duration admin_fees remitted
      loan_date now).1 = round2 (amount * (rate / 100) * duration) := by
  simp [calculate_loan_fields]

/-- C7: every failure of the `months_overdue` body (unparseable date
string, incompatible date-like value, missing value) is swallowed by the
bare `except:` and the function returns 0 overdue months instead of
propagating the error. -/
theorem months_overdue_swallows_errors
    (loan_date : PyDateLike) (duration_months now : ℚ) (e : PyErr)
    (h : months_overdueE loan_date duration_months now = .error e) :
    months_overdue loan_date duration_months now = 0 := by
  simp [months_overdue, h]

/-- C7 witness: an unparseable date string makes the body raise
`ValueError`, and `months_overdue` returns 0 on it. -/
theorem months_overdue_swallows_errors_witness :
    months_overdueE (.str none) 3 0 = .error .valueError ∧
    months_overdue (.str none) 3 0 = 0 :=
  ⟨rfl, months_overdue_swallows_errors (.str none) 3 0 .valueError rfl⟩

/-- C8: `calculate_loan_fields` is deterministic — two calls whose six
inputs and reference instant are pairwise equal return the same
five-tuple.  The embedding is a pure function of exactly these arguments:
the source reads no other state (the wall clock it reads is the `now`
argument). -/
theorem calculate_loan_fields_deterministic
    (a r d f m : ℚ) (ld : PyDateLike) (now : ℚ)
    (a' r' d' f' m' : ℚ) (ld' : PyDateLike) (now' : ℚ)
    (ha : a = a') (hr : r = r') (hd : d = d') (hf : f = f') (hm : m = m')
    (hld : ld = ld') (hnow : now = now') :
    calculate_loan_fields a r d f m ld now =
      calculate_loan_fields a' r' d' f' m' ld' now' := by
  subst ha hr hd hf hm hld hnow
  rfl

/-- C8 witness: two identical concrete calls agree. -/
theorem calculate_loan_fields_deterministic_witness :
    calculate_loan_fields 100000 5 3 2000 0 (.datetime 0) 150 =
      calculate_loan_fields 100000 5 3 2000 0 (.datetime 0) 150 :=
  calculate_loan_fields_deterministic 100000 5 3 2000 0 (.datetime 0) 150
    100000 5 3 2000 0 (.datetime 0) 150 rfl rfl rfl rfl rfl rfl rfl

/-- C10: a `date`-typed (date-only) disbursement value — what the
loan-creation form passes — makes the `today <= due` comparison raise
`TypeError`, the blanket handler swallows it, `months_overdue` returns 0,
and the penalty component of `calculate_loan_fields` is 0 for every such
input, however far in the past the date lies. -/
theorem date_typed_input_never_overdue
    (day : ℤ) (amount rate duration admin_fees remitted now : ℚ) :
    months_overdueE (.date day) duration now = .error .typeError ∧
    months_overdue (.date day) duration now = 0 ∧
    (calculate_loan_fields amount rate duration admin_fees remitted
      (.date day) now).2.1 = 0 := by
  refine ⟨rfl, rfl, ?_⟩
  simp [calculate_loan_fields, months_overdue, months_overdueE, addDays,
    pd_notna, round2_zero]

/-- C1 counterexample: the claim computes the due date with
`round(durationMonths × 30.437)`; the source uses `int(...)`, which
truncates.  At disbursement instant 0, duration 2 months and reference
instant 90 days, the source's due date is day 60 (`int(60.874)`) and it
reports 1 overdue month, while the claimed formula's due date is day 61
(`round(60.874)`) and it reports 0. -/
theorem months_overdue_round_cex :
    months_overdue (.datetime 0) 2 90 = 1 ∧ monthsOverdueSpec 0 2 90 = 0 := by
  constructor
  · norm_num [months_overdue, months_overdueE, addDays, pyInt,
      show Int.fdiv 30 30 = 1 from by decide]
  · norm_num [monthsOverdueSpec, round_eq,
      show Int.fdiv 29 30 = 0 from by decide]

/-- C1 amended: for every disbursement instant, nonnegative contractual
duration and reference instant, `months_overdue` computes the due date as
disbursement + `⌊durationMonths × 30.437⌋` days (the truncation Python's
`int` performs), returns 0 when the reference instant is at or before that
due date, and otherwise returns `floor((asOf − dueDate).days / 30)`. -/
theorem months_overdue_truncated_due (t duration_months now : ℚ)
    (hd : 0 ≤ duration_months) :
    months_overdue (.datetime t) duration_months now =
      monthsOverdueAmended t duration_months now := by
  have h30 : (0 : ℚ) ≤ duration_months * (30437 / 1000) :=
    mul_nonneg hd (by norm_num)
  by_cases hle : now ≤ t + (⌊duration_months * (30437 / 1000)⌋ : ℤ)
  · simp [months_overdue, months_overdueE, addDays, monthsOverdueAmended,
      pyInt, h30, hle]
  · simp [months_overdue, months_overdueE, addDays, monthsOverdueAmended,
      pyInt, h30, hle]

/-- C1 amended witness: at disbursement 0, duration 3 and reference
instant 150 the source function and the amended formula agree. -/
theorem months_overdue_truncated_due_witness :
    (0 : ℚ) ≤ 3 ∧
    months_overdue (.datetime 0) 3 150 = monthsOverdueAmended 0 3 150 :=
  ⟨by norm_num, months_overdue_truncated_due 0 3 150 (by norm_num)⟩

/-- C2 counterexample: with principal 0.04, rate 10%, duration 1, no admin
fee, nothing remitted and one overdue month, the returned grand total is
0.05 but principal + adminFee + returned interest + returned penalty is
0.04 + 0 + 0.00 + 0.00 = 0.04: the post-rounding sum identity of the claim
fails, because rounding each component to 2 decimal places does not
distribute over the sum. -/
theorem grand_total_component_sum_cex :
    ¬ ((calculate_loan_fields (4/100) 10 1 0 0 (.datetime 0) 61).2.2.2.1 =
        4/100 + 0 + (calculate_loan_fields (4/100) 10 1 0 0 (.datetime 0) 61).1 +
          (calculate_loan_fields (4/100) 10 1 0 0 (.datetime 0) 61).2.1) := by
  norm_num [calculate_loan_fields, months_overdue, months_overdueE, addDays,
    pyInt, pd_notna, round2, round_eq, show Int.fdiv 31 30 = 1 from by decide]

/-- C2 amended: for all inputs the returned balance is nonnegative, and
whenever the principal is a whole number of hundredths the returned grand
total equals principal + returned totalAddOns (the sum identity over the
individually rounded adminFee/interest/penalty components is what fails). -/
theorem balance_nonneg_and_grand_total_split
    (amount rate duration admin_fees remitted : ℚ) (loan_date : PyDateLike)
    (now : ℚ) (k : ℤ) (hk : amount = (k : ℚ) / 100) :
    0 ≤ (calculate_loan_fields amount rate duration admin_fees remitted
          loan_date now).2.2.2.2 ∧
    (calculate_loan_fields amount rate duration admin_fees remitted
        loan_date now).2.2.2.1 =
      amount + (calculate_loan_fields amount rate duration admin_fees remitted
        loan_date now).2.2.1 := by
  constructor
  · exact round2_nonneg (le_max_right _ _)
  · subst hk
    exact round2_cents_add k _

/-- C2 amended witness: spec §8 scenario B (principal 100000 = 10000000
hundredths) — balance is nonnegative and grand total splits as principal +
total add-ons. -/
theorem balance_nonneg_and_grand_total_split_witness :
    (100000 : ℚ) = ((10000000 : ℤ) : ℚ) / 100 ∧
    (0 ≤ (calculate_loan_fields 100000 5 3 2000 0 (.datetime 0) 150).2.2.2.2 ∧
     (calculate_loan_fields 100000 5 3 2000 0 (.datetime 0) 150).2.2.2.1 =
       100000 +
         (calculate_loan_fields 100000 5 3 2000 0 (.datetime 0) 150).2.2.1) :=
  ⟨by norm_num,
    balance_nonneg_and_grand_total_split 100000 5 3 2000 0 (.datetime 0) 150
      10000000 (by norm_num)⟩

/-- C4: with a strictly positive manual penalty, the edit-path submit
handler bypasses the engine entirely: penalty = the manual value,
totalAddOns = adminFee + interest + manual value, grandTotal = principal +
totalAddOns (each stored rounded to 2 decimal places), and balance is
exactly 0 — the remitted amount, the date and the reference instant do not
appear on the right-hand side. -/
theorem manual_override_bypass
    (edit_amount edit_rate edit_duration edit_admin_fee edit_remitted
      edit_penalty : ℚ) (edit_date : PyDateLike) (now : ℚ)
    (hp : 0 < edit_penalty) :
    edit_loan_submit edit_amount edit_rate edit_duration edit_admin_fee
        edit_remitted edit_penalty edit_date now =
      (round2 (edit_amount * (edit_rate / 100) * edit_duration),
       round2 edit_penalty,
       round2 (edit_admin_fee +
         edit_amount * (edit_rate / 100) * edit_duration + edit_penalty),
       round2 (edit_amount + (edit_admin_fee +
         edit_amount * (edit_rate / 100) * edit_duration + edit_penalty)),
       0) := by
  simp [edit_loan_submit, hp, round2_zero]

/-- C4 witness: spec §8 scenario D — manual penalty 5000 on scenario A's
loan with 50000 remitted: the five stored fields are 15000, 5000, 22000,
122000 and 0. -/
theorem manual_override_bypass_witness :
    (0 : ℚ) < 5000 ∧
    edit_loan_submit 100000 5 3 2000 50000 5000 (.datetime 0) 90 =
      (round2 (100000 * ((5 : ℚ) / 100) * 3),
       round2 5000,
       round2 (2000 + 100000 * ((5 : ℚ) / 100) * 3 + 5000),
       round2 (100000 + (2000 + 100000 * ((5 : ℚ) / 100) * 3 + 5000)),
       0) :=
  ⟨by norm_num,
    manual_override_bypass 100000 5 3 2000 50000 5000 (.datetime 0) 90
      (by norm_num)⟩

/-- C5: whenever the provisional rule does not fire, the returned penalty
is `round2 (principal × (10/100) × overdueMonths)` — 10% of principal per
overdue month, linear in the overdue-month count with no cap. -/
theorem penalty_linear_rate
    (amount rate duration admin_fees remitted : ℚ) (loan_date : PyDateLike)
    (now : ℚ)
    (h : 0 < amount + admin_fees + amount * (rate / 100) * duration - remitted) :
    (calculate_loan_fields amount rate duration admin_fees remitted
        loan_date now).2.1 =
      round2 (amount * (10 / 100) *
        ((if pd_notna loan_date then months_overdue loan_date duration now
          else 0 : ℤ) : ℚ)) := by
  have h' : ¬ (amount + admin_fees + amount * (rate / 100) * duration -
      remitted ≤ 0) := not_le.mpr h
  simp [calculate_loan_fields, h']

/-- C5 witness: spec §8 scenario B — provisional is positive and the
penalty component is 10% of principal times the overdue-month count. -/
theorem penalty_linear_rate_witness :
    (0 : ℚ) < 100000 + 2000 + 100000 * (5 / 100) * 3 - 0 ∧
    (calculate_loan_fields 100000 5 3 2000 0 (.datetime 0) 150).2.1 =
      round2 (100000 * ((10 : ℚ) / 100) *
        ((if pd_notna (.datetime 0) then months_overdue (.datetime 0) 3 150
          else 0 : ℤ) : ℚ)) :=
  ⟨by norm_num,
    penalty_linear_rate 100000 5 3 2000 0 (.datetime 0) 150 (by norm_num)⟩

/-- C9: `calculate_loan_fields` is total over its numeric domain — for
every rational input (negative principal, rate, fees or remitted amount
and zero or negative duration included) and every date-like value, the
exception-explicit embedding returns `ok` of the pure function's value: no
exception escapes, the only potentially raising sub-computation being the
date handling that `months_overdue` catches internally. -/
theorem calculate_loan_fields_total
    (amount rate duration admin_fees remitted : ℚ) (loan_date : PyDateLike)
    (now : ℚ) :
    calculate_loan_fieldsE amount rate duration admin_fees remitted
        loan_date now =
      .ok (calculate_loan_fields amount rate duration admin_fees remitted
        loan_date now) := by
  unfold calculate_loan_fieldsE calculate_loan_fields months_overdue
  cases hpd : pd_notna loan_date
  · simp
  · cases h : months_overdueE loan_date duration now <;> simp [h]
